import Mathlib

/-!
Verification development for the issue-metrics repository.

This file shallowly embeds the two source modules, `slice_by_user.py` and
`markdown_writer.py`, and proves/refutes the frozen claims about them.

Modelling conventions:
  - Python `timedelta` values are modelled in whole seconds as `Int`
    (Python `timedelta` supports negative values; `total_seconds()` sums
    are modelled as exact integer arithmetic).
  - Python `datetime` timestamps are modelled as `Int`.
  - Python `None` is modelled with `Option`; Python truthiness of each
    relevant value class gets an explicit `pyTruthy...` function
    (`timedelta(0)`, `None`, `""`, `[]`, `{}` are all falsy).
  - `dict` objects keyed by author are modelled as insertion-ordered
    association lists (Python 3.7+ dicts preserve insertion order).
  - Runtime failures of the Python code (`UnboundLocalError`, `TypeError`,
    `KeyError`, `ZeroDivisionError`) are modelled with `Except String` /
    an `Option String` error component; file writes are modelled as the
    list of strings passed to `file.write`, in order.
  - `get_time_to_ready_for_review` (module `time_to_ready_for_review`) and
    `get_env_vars` (module `config`) are external collaborators not present
    in the sources; they are passed as explicit parameters (`gr`, `EnvVars`).
-/

namespace IssueMetrics

/-- A GitHub user as seen by `slice_by_user.py`: `user.login` and `user.type`
(the latter is `"Bot"` for bot accounts). -/
structure User where
  login : String
  type : String
  deriving Repr, DecidableEq

/-- A pull-request review comment: `review_comment.user` and
`review_comment.submitted_at`. -/
structure Comment where
  user : User
  submitted_at : Int
  deriving Repr, DecidableEq

/-- The pull-request object returned by `issue.issue.pull_request()`;
`reviews(number=50)` is modelled as the `reviews` list (truncated to 50 when
iterated). -/
structure PullRequest where
  reviews : List Comment
  deriving Repr, DecidableEq

/-- The inner `issue.issue` object: `pull_request_urls` (modelled by its
truthiness), the result of the `pull_request()` call (possibly `None`), and
the issue's `user`. -/
structure Issue where
  pull_request_urls : Bool
  pull_request : Option PullRequest
  user : User
  deriving Repr, DecidableEq

/-- An `IssueWithMetrics` record (class defined in the external `classes`
module; fields as used by the two source files). `label_metrics` maps a
label name to the time spent in that label, in seconds. -/
structure IssueWithMetrics where
  author : Option String
  title : String
  html_url : String
  time_to_first_response : Option Int
  time_to_close : Option Int
  time_to_answer : Option Int
  label_metrics : Option (List (String × Int))
  issue : Issue
  deriving Repr, DecidableEq

/-- The type of the external collaborator `get_time_to_ready_for_review`
from the missing `time_to_ready_for_review` module: given the item and the
(possibly `None`) pull-request object, it returns an optional
ready-for-review timestamp. -/
abbrev GetReady : Type := IssueWithMetrics → Option PullRequest → Option Int

/-- Truthiness of an optional `timedelta`: Python `None` and `timedelta(0)`
are falsy, every other timedelta is truthy. -/
def truthyDur : Option Int → Bool
  | some v => v != 0
  | none => false

/-- The per-author accumulator dict `author_value` from `slice_by_user.py`
(lines 17-26). -/
structure AuthorValue where
  total_time_to_first_response : Int
  total_time_to_close : Int
  total_time_to_answer : Int
  first_response_count : Nat
  close_count : Nat
  answer_count : Nat
  total_prs : Nat
  comments : Nat
  deriving Repr, DecidableEq

/-- `author_value.copy()`: the all-zero accumulator. -/
def author_value : AuthorValue :=
  { total_time_to_first_response := 0
    total_time_to_close := 0
    total_time_to_answer := 0
    first_response_count := 0
    close_count := 0
    answer_count := 0
    total_prs := 0
    comments := 0 }

/-- The `author_stats` dict: an insertion-ordered association list from
author identity (`Option String`: the author may be Python `None`) to the
accumulator. -/
abbrev AMap : Type := List (Option String × AuthorValue)

/-- Dict membership / indexing: first (unique) matching key. -/
def lookupA : AMap → Option String → Option AuthorValue
  | [], _ => none
  | (a, v) :: rest, k => if a = k then some v else lookupA rest k

/-- `if author not in author_stats: author_stats[author] = author_value.copy()`. -/
def ensureKey (m : AMap) (k : Option String) : AMap :=
  if (lookupA m k).isSome then m else m ++ [(k, author_value)]

/-- In-place update of the value stored at key `k` (Python dict item update). -/
def bumpKey (m : AMap) (k : Option String) (f : AuthorValue → AuthorValue) : AMap :=
  match m with
  | [] => []
  | (a, v) :: rest => if a = k then (a, f v) :: rest else (a, v) :: bumpKey rest k f

/-- The per-item accumulator updates of `slice_pr_by_user` (lines 43-55):
each truthy duration is added to the matching total and its count is
incremented; `total_prs` is always incremented. -/
def applyIssue (i : IssueWithMetrics) (v : AuthorValue) : AuthorValue :=
  let v1 := if truthyDur i.time_to_first_response then
      { v with
        total_time_to_first_response :=
          v.total_time_to_first_response + i.time_to_first_response.getD 0
        first_response_count := v.first_response_count + 1 }
    else v
  let v2 := if truthyDur i.time_to_close then
      { v1 with
        total_time_to_close := v1.total_time_to_close + i.time_to_close.getD 0
        close_count := v1.close_count + 1 }
    else v1
  let v3 := if truthyDur i.time_to_answer then
      { v2 with
        total_time_to_answer := v2.total_time_to_answer + i.time_to_answer.getD 0
        answer_count := v2.answer_count + 1 }
    else v2
  { v3 with total_prs := v3.total_prs + 1 }

/-- `ignore_comment` from `slice_by_user.py` (lines 111-125): a comment is
ignored when its author is a bot, or is the issue creator, or (when a
ready-for-review timestamp is known, i.e. truthy) the comment predates it. -/
def ignore_comment (issue_user : User) (comment_user : User)
    (comment_created_at : Int) (ready_for_review_at : Option Int) : Bool :=
  comment_user.type == "Bot"
    || comment_user.login == issue_user.login
    || (match ready_for_review_at with
        | some t => decide (comment_created_at < t)
        | none => false)

/-- Error raised by `if pull_request:` (line 62) when no earlier iteration
ever assigned the local variable. -/
def unboundLocalMsg : String :=
  "UnboundLocalError: local variable pull_request referenced before assignment"

/-- Error raised by line 74, `author[review_comment.user]["comments"] += 1`:
`author` is the author string (or None), so subscripting it raises. -/
def typeErrorMsg : String :=
  "TypeError: string indices must be integers"

/-- Loop state of `slice_pr_by_user`: the `author_stats` dict plus the
function-local variables `pull_request` / `ready_for_review_at`, which are
assigned together (lines 59-60) and persist across loop iterations.
`none` means they are still unbound. -/
structure StepState where
  author_stats : AMap
  prBinding : Option (Option PullRequest × Option Int)
  deriving Repr

/-- The initial loop state: `author_stats = {}`, locals unbound. -/
def initState : StepState := { author_stats := [], prBinding := none }

/-- The stats-dict part of one loop iteration (lines 38-55). -/
def stepStats (m : AMap) (i : IssueWithMetrics) : AMap :=
  bumpKey (ensureKey m i.author) i.author (applyIssue i)

/-- One iteration of the `for issue in issues_with_metrics` loop of
`slice_pr_by_user` (lines 36-74), including the comment-counting section
with its two runtime faults: reading `pull_request` while unbound, and the
`author[...]` subscript reached by the first non-ignored comment. -/
def stepIssue (gr : GetReady) (st : StepState) (i : IssueWithMetrics) :
    Except String StepState :=
  let m := stepStats st.author_stats i
  let prB := if i.issue.pull_request_urls then
      some (i.issue.pull_request, gr i i.issue.pull_request)
    else st.prBinding
  match prB with
  | none => .error unboundLocalMsg
  | some (none, _) => .ok { author_stats := m, prBinding := prB }
  | some (some pr, rfr) =>
    if (pr.reviews.take 50).any
        (fun c => !(ignore_comment i.issue.user c.user c.submitted_at rfr)) then
      .error typeErrorMsg
    else
      .ok { author_stats := m, prBinding := prB }

/-- The aggregation loop of `slice_pr_by_user`. -/
def sliceLoop (gr : GetReady) (st : StepState) :
    List IssueWithMetrics → Except String StepState
  | [] => .ok st
  | i :: rest =>
    match stepIssue gr st i with
    | .ok st1 => sliceLoop gr st1 rest
    | .error e => .error e

/-- The column-header list of the per-author table (line 77 of
`slice_by_user.py`), verbatim. -/
def slice_columns : List String :=
  ["Author", "Avg Time to First Response On Their PRS", "Avg Time to Close",
   "Total PRs", "PR Review Comments Left"]

/-- The writes performed by lines 79-92: the section title, the header row
and the divider row of the per-author table. -/
def sliceHeader : List String :=
  ["# User-Aggregated Metrics\n\n", "|"]
    ++ slice_columns.map (fun c => " " ++ c ++ " |")
    ++ ["\n", "|"]
    ++ slice_columns.map (fun _ => " --- |")
    ++ ["\n"]

/-- Python `str(timedelta(seconds=n))` for whole-second values: normalized
to `(days, rem)` with `0 <= rem < 86400`, rendered as `[D day(s), ]H:MM:SS`. -/
def pad2 (n : Nat) : String := if n < 10 then "0" ++ toString n else toString n

/-- String form of a whole-second timedelta, matching Python `str`. -/
def timedeltaStr (secs : Int) : String :=
  let days := Int.fdiv secs 86400
  let rem := (Int.emod secs 86400).toNat
  let h := rem / 3600
  let m := rem % 3600 / 60
  let s := rem % 60
  let timePart := toString h ++ ":" ++ pad2 m ++ ":" ++ pad2 s
  if days = 0 then timePart
  else toString days ++ (if days = 1 ∨ days = -1 then " day, " else " days, ")
    ++ timePart

/-- Python `f"{x}"` for an optional author string (`str(None) = "None"`). -/
def pyOptS : Option String → String
  | some s => s
  | none => "None"

/-- Python integer floor division `//`, raising `ZeroDivisionError` on a
zero divisor. -/
def pyFloorDiv (a b : Int) : Except String Int :=
  if b = 0 then .error "ZeroDivisionError: integer division or modulo by zero"
  else .ok (Int.fdiv a b)

/-- Line 97: the first-response average cell. The conditional expression
guards on `first_response_count`; the division is evaluated only under the
guard. -/
def avgCellFR (v : AuthorValue) : Except String String :=
  if v.first_response_count ≠ 0 then
    match pyFloorDiv v.total_time_to_first_response (v.first_response_count : Int) with
    | .ok q => .ok (timedeltaStr q)
    | .error e => .error e
  else .ok "None"

/-- Line 98: the close average cell. Note the guard is the truthiness of
`total_time_to_close`, not of `close_count`. -/
def avgCellClose (v : AuthorValue) : Except String String :=
  if v.total_time_to_close ≠ 0 then
    match pyFloorDiv v.total_time_to_close (v.close_count : Int) with
    | .ok q => .ok (timedeltaStr q)
    | .error e => .error e
  else .ok "None"

/-- The six writes of one per-author row (lines 102-107). -/
def authorRow (a : Option String) (v : AuthorValue) : Except String (List String) := do
  let c1 ← avgCellFR v
  let c2 ← avgCellClose v
  .ok [" " ++ pyOptS a ++ " |", " " ++ c1 ++ " |", " " ++ c2 ++ " |",
       " " ++ toString v.total_prs ++ " |", " " ++ toString v.comments ++ " |", "\n"]

/-- The row-writing loop (line 95): one row per entry of `author_stats`, in
dict (= insertion) order. -/
def renderRows : AMap → Except String (List String)
  | [] => .ok []
  | (a, v) :: rest => do
    let r ← authorRow a v
    let rs ← renderRows rest
    .ok (r ++ rs)

/-- `slice_pr_by_user(issues_with_metrics, file)`: the aggregation loop
followed by the table writes. The result is the list of strings written to
`file`, or the Python exception that escaped. -/
def slice_pr_by_user (gr : GetReady) (issues : List IssueWithMetrics) :
    Except String (List String) :=
  match sliceLoop gr initState issues with
  | .error e => .error e
  | .ok st =>
    match renderRows st.author_stats with
    | .error e => .error e
    | .ok rows => .ok (sliceHeader ++ rows)

/-! ## markdown_writer.py -/

/-- The environment variables consulted by `get_non_hidden_columns` through
the external `config.get_env_vars` collaborator (the `config` module is not
part of the sources); modelled as an explicit record parameter. -/
structure EnvVars where
  hide_author : Bool
  hide_time_to_first_response : Bool
  hide_time_to_close : Bool
  hide_time_to_answer : Bool
  hide_label_metrics : Bool
  deriving Repr, DecidableEq

/-- Truthiness of the optional `labels` list (`None` and `[]` are falsy). -/
def pyTruthyL : Option (List String) → Bool
  | some l => !l.isEmpty
  | none => false

/-- `get_non_hidden_columns(labels)` from `markdown_writer.py` (lines 35-72). -/
def get_non_hidden_columns (env : EnvVars) (labels : Option (List String)) :
    List String :=
  ["Title", "URL"]
    ++ (if !env.hide_author then ["Author"] else [])
    ++ (if !env.hide_time_to_first_response then ["Time to first response"] else [])
    ++ (if !env.hide_time_to_close then ["Time to close"] else [])
    ++ (if !env.hide_time_to_answer then ["Time to answer"] else [])
    ++ (if !env.hide_label_metrics && pyTruthyL labels then
          (labels.getD []).map (fun l => "Time spent in " ++ l)
        else [])

/-- One of the `stats_time_to_*` dicts (`{'avg': .., 'med': .., '90p': ..}`),
values in whole seconds. -/
structure Stats3 where
  avg : Int
  med : Int
  p90 : Int
  deriving Repr, DecidableEq

/-- The `stats_time_in_labels` dict: each of the three keys maps label
names to durations. -/
structure LabelStats where
  avg : List (String × Int)
  med : List (String × Int)
  p90 : List (String × Int)
  deriving Repr, DecidableEq

/-- Lookup in a string-keyed dict. -/
def lookupS (m : List (String × Int)) (k : String) : Option Int :=
  match m with
  | [] => none
  | (a, v) :: rest => if a = k then some v else lookupS rest k

/-- Python `f"{x}"` for an optional timedelta. -/
def pyOptTd : Option Int → String
  | some v => timedeltaStr v
  | none => "None"

/-- Python `f"{x}"` for an optional int. -/
def pyOptInt : Option Int → String
  | some n => toString n
  | none => "None"

/-- Truthiness of the optional `search_query` string (`None` and `""` falsy). -/
def pyTruthyS : Option String → Bool
  | some s => !s.isEmpty
  | none => false

/-- Truthiness of the optional `issues_with_metrics` argument:
`if not issues_with_metrics or len(issues_with_metrics) == 0` (line 113). -/
def pyTruthyIssues : Option (List IssueWithMetrics) → Bool
  | some l => !l.isEmpty
  | none => false

/-- Truthiness of `issue.label_metrics` (`None` and `{}` falsy). -/
def pyTruthyLM : Option (List (String × Int)) → Bool
  | some l => !l.isEmpty
  | none => false

/-- Python `KeyError` from a missing dict key. -/
def keyErrorMsg : String := "KeyError"

/-- `TypeError` from `len(labels)` when `labels` is `None` (line 203). -/
def lenNoneMsg : String := "TypeError: object of type NoneType has no len()"

/-- The guard of the first overall-metrics table
(`write_overall_metrics_tables`, lines 199-204), with Python short-circuit
evaluation: `len(labels)` is reached (and raises on `labels=None`) only when
all three duration columns are hidden and `hide_label_metrics is False`. -/
def overallCond (columns : List String) (labels : Option (List String))
    (hlm : Bool) : Except String Bool :=
  if "Time to first response" ∈ columns then .ok true
  else if "Time to close" ∈ columns then .ok true
  else if "Time to answer" ∈ columns then .ok true
  else if hlm = false then
    match labels with
    | none => .error lenNoneMsg
    | some ls => .ok (decide (ls.length > 0))
  else .ok false

/-- One duration-metric row of the overall table (a single `file.write`):
present stats render their three values, absent stats render `None` cells. -/
def statsRow (name : String) (s : Option Stats3) : String :=
  match s with
  | some st =>
    "| " ++ name ++ " | " ++ timedeltaStr st.avg ++ " | " ++ timedeltaStr st.med
      ++ " | " ++ timedeltaStr st.p90 ++ " |\n"
  | none => "| " ++ name ++ " | None | None | None |\n"

/-- The per-label rows of the overall table (lines 237-248). The guard
checks only membership in the `avg` sub-dict; the `med`/`90p` subscripts in
the f-string can raise `KeyError`, truncating the output. -/
def labelStatRows (columns : List String) (slab : LabelStats) :
    List String → List String × Option String
  | [] => ([], none)
  | l :: rest =>
    if ("Time spent in " ++ l) ∈ columns ∧ (lookupS slab.avg l).isSome then
      match lookupS slab.med l with
      | none => ([], some keyErrorMsg)
      | some mv =>
        match lookupS slab.p90 l with
        | none => ([], some keyErrorMsg)
        | some pv =>
          let row := "| Time spent in " ++ l ++ " | "
            ++ timedeltaStr ((lookupS slab.avg l).getD 0) ++ " | "
            ++ timedeltaStr mv ++ " | " ++ timedeltaStr pv ++ " |\n"
          let r := labelStatRows columns slab rest
          (row :: r.1, r.2)
    else labelStatRows columns slab rest

/-- The count table (lines 251-255), always written. -/
def countTable (items : List IssueWithMetrics) (nopen nclosed : Option Int) :
    List String :=
  ["| Metric | Count |\n", "| --- | ---: |\n",
   "| Number of items that remain open | " ++ pyOptInt nopen ++ " |\n",
   "| Number of items closed | " ++ pyOptInt nclosed ++ " |\n",
   "| Total number of items created | " ++ toString items.length ++ " |\n\n"]

/-- `write_overall_metrics_tables` (lines 185-255): writes so far plus the
escaped exception, if any. -/
def write_overall_metrics_tables (items : List IssueWithMetrics)
    (sfr scl san : Option Stats3) (slab : Option LabelStats)
    (nopen nclosed : Option Int) (labels : Option (List String))
    (columns : List String) (hlm : Bool) : List String × Option String :=
  match overallCond columns labels hlm with
  | .error e => ([], some e)
  | .ok cond =>
    if cond then
      let hdr := ["| Metric | Average | Median | 90th percentile |\n",
                  "| --- | --- | --- | ---: |\n"]
      let r1 := if "Time to first response" ∈ columns then
          [statsRow "Time to first response" sfr] else []
      let r2 := if "Time to close" ∈ columns then
          [statsRow "Time to close" scl] else []
      let r3 := if "Time to answer" ∈ columns then
          [statsRow "Time to answer" san] else []
      let lr := if pyTruthyL labels ∧ slab.isSome then
          labelStatRows columns (slab.getD { avg := [], med := [], p90 := [] })
            (labels.getD [])
        else ([], none)
      match lr.2 with
      | some e => (hdr ++ r1 ++ r2 ++ r3 ++ lr.1, some e)
      | none =>
        (hdr ++ r1 ++ r2 ++ r3 ++ lr.1 ++ ["\n"] ++ countTable items nopen nclosed,
         none)
    else (countTable items nopen nclosed, none)

/-- Python `s.replace("|", "&#124;")` (line 158): a single-character pattern
replace is a character-wise substitution. -/
def replaceBars (s : String) : String :=
  String.mk (s.data.flatMap (fun c => if c = '|' then "&#124;".data else [c]))

/-- The whitespace set of Python `str.strip()` (ASCII part). -/
def pyWS (c : Char) : Bool :=
  c == ' ' || c == '\t' || c == '\n' || c == '\r' || c == '\x0b' || c == '\x0c'

/-- Python `s.strip()` (line 160). -/
def pyStrip (s : String) : String :=
  String.mk (((s.data.dropWhile pyWS).reverse.dropWhile pyWS).reverse)

/-- The header-and-divider writes shared by the individual-metrics table
(lines 143-152). -/
def tableHeaderWrites (columns : List String) : List String :=
  ["|"] ++ columns.map (fun c => " " ++ c ++ " |") ++ ["\n", "|"]
    ++ columns.map (fun _ => " --- |") ++ ["\n"]

/-- The label cells of one detail row (lines 171-174): cells written before
a missing `issue.label_metrics[label]` key raises `KeyError` are kept. -/
def labelCells (columns : List String) (lm : List (String × Int)) :
    List String → List String × Option String
  | [] => ([], none)
  | l :: rest =>
    if ("Time spent in " ++ l) ∈ columns then
      match lookupS lm l with
      | some v =>
        let r := labelCells columns lm rest
        ((" " ++ timedeltaStr v ++ " |") :: r.1, r.2)
      | none => ([], some keyErrorMsg)
    else labelCells columns lm rest

/-- The first write of a detail row (line 162): title escaped and stripped,
then the URL. -/
def detailTitle (i : IssueWithMetrics) : String :=
  "| " ++ pyStrip (replaceBars i.title) ++ " | " ++ i.html_url ++ " |"

/-- The column-guarded cells of one detail row (lines 163-170). -/
def detailCells (columns : List String) (i : IssueWithMetrics) : List String :=
  (if "Author" ∈ columns then [" " ++ pyOptS i.author ++ " |"] else [])
    ++ (if "Time to first response" ∈ columns then
          [" " ++ pyOptTd i.time_to_first_response ++ " |"] else [])
    ++ (if "Time to close" ∈ columns then
          [" " ++ pyOptTd i.time_to_close ++ " |"] else [])
    ++ (if "Time to answer" ∈ columns then
          [" " ++ pyOptTd i.time_to_answer ++ " |"] else [])

/-- One row of the per-item detail table (lines 155-175). The title is
rewritten by `replace` then `strip` before the first write; the trailing
newline is written only if no label lookup raised. -/
def detailRow (columns : List String) (labels : Option (List String))
    (i : IssueWithMetrics) : List String × Option String :=
  if pyTruthyL labels && pyTruthyLM i.label_metrics then
    match labelCells columns (i.label_metrics.getD []) (labels.getD []) with
    | (lws, some e) => (detailTitle i :: detailCells columns i ++ lws, some e)
    | (lws, none) => (detailTitle i :: detailCells columns i ++ lws ++ ["\n"], none)
  else (detailTitle i :: detailCells columns i ++ ["\n"], none)

/-- The detail-table row loop: rows written before a raising row are kept. -/
def detailRows (columns : List String) (labels : Option (List String)) :
    List IssueWithMetrics → List String × Option String
  | [] => ([], none)
  | i :: rest =>
    match detailRow columns labels i with
    | (ws, some e) => (ws, some e)
    | (ws, none) =>
      (ws ++ (detailRows columns labels rest).1, (detailRows columns labels rest).2)

/-- The fixed footer attribution line (lines 116-117 and 176-178). -/
def footerStr : String :=
  "\n_This report was generated with the [Issue Metrics Action](https://github.com/github/issue-metrics)_\n"

/-- The "no items" notice (line 114). -/
def noticeStr : String := "no issues found for the given search criteria\n\n"

/-- The search-query attribution line (lines 119 and 180). -/
def queryLine (q : String) : String :=
  "Search query used to find these items: `" ++ q ++ "`\n"

/-- The optional search-query write (`if search_query:`). -/
def queryWrites (q : Option String) : List String :=
  if pyTruthyS q then [queryLine (q.getD "")] else []

/-- The non-empty branch of `write_to_markdown` (lines 122-180): overall
tables, per-author table, detail table, footer. Any escaped exception
truncates the writes at the point it was raised. -/
def writeNonEmpty (gr : GetReady) (items : List IssueWithMetrics)
    (sfr scl san : Option Stats3) (slab : Option LabelStats)
    (nopen nclosed : Option Int) (labels : Option (List String))
    (q : Option String) (hlm : Bool) (columns : List String) :
    List String × Option String :=
  match write_overall_metrics_tables items sfr scl san slab nopen nclosed
    labels columns hlm with
  | (w1, some e) => (w1, some e)
  | (w1, none) =>
    match slice_pr_by_user gr items with
    | .error e => (w1, some e)
    | .ok w2 =>
      match detailRows columns labels items with
      | (w3, some e) =>
        (w1 ++ w2 ++ ["# Individual Metrics\n\n"] ++ tableHeaderWrites columns
          ++ w3, some e)
      | (w3, none) =>
        (w1 ++ w2 ++ ["# Individual Metrics\n\n"] ++ tableHeaderWrites columns
          ++ w3 ++ [footerStr] ++ queryWrites q, none)

/-- The writes of `write_to_markdown` after the opening `# Issue Metrics`
header, plus the escaped exception, if any. -/
def writeBody (env : EnvVars) (gr : GetReady)
    (issues : Option (List IssueWithMetrics))
    (sfr scl san : Option Stats3) (slab : Option LabelStats)
    (nopen nclosed : Option Int) (labels : Option (List String))
    (q : Option String) (hlm : Bool) : List String × Option String :=
  if !pyTruthyIssues issues then
    ([noticeStr, footerStr] ++ queryWrites q, none)
  else
    writeNonEmpty gr (issues.getD []) sfr scl san slab nopen nclosed labels q
      hlm (get_non_hidden_columns env labels)

/-- The observable effect of one `write_to_markdown` call: the destination
path it opened, the strings written to it, in order, and the escaped
exception, if any. -/
structure MarkdownResult where
  path : String
  writes : List String
  err : Option String
  deriving Repr

/-- `write_to_markdown` (lines 75-182): opens the hard-coded path
`issue_metrics.md` (the signature has no destination parameter), writes the
title header, then either the empty-collection notice or the full report. -/
def write_to_markdown (env : EnvVars) (gr : GetReady)
    (issues : Option (List IssueWithMetrics))
    (sfr scl san : Option Stats3) (slab : Option LabelStats)
    (nopen nclosed : Option Int) (labels : Option (List String))
    (search_query : Option String) (hide_label_metrics : Bool) :
    MarkdownResult :=
  { path := "issue_metrics.md"
    writes := "# Issue Metrics\n\n" :: (writeBody env gr issues sfr scl san slab
      nopen nclosed labels search_query hide_label_metrics).1
    err := (writeBody env gr issues sfr scl san slab nopen nclosed labels
      search_query hide_label_metrics).2 }

/-! ## Association-list lemmas -/

theorem lookupA_append_self (m : AMap) (k : Option String) (v : AuthorValue)
    (h : lookupA m k = none) : lookupA (m ++ [(k, v)]) k = some v := by
  induction m with
  | nil => simp [lookupA]
  | cons p rest ih =>
    obtain ⟨a, w⟩ := p
    by_cases hak : a = k
    · simp [lookupA, hak] at h
    · simpa [lookupA, hak] using ih (by simpa [lookupA, hak] using h)

theorem lookupA_ensure_self (m : AMap) (k : Option String) :
    lookupA (ensureKey m k) k = some ((lookupA m k).getD author_value) := by
  unfold ensureKey
  cases h : lookupA m k with
  | none => simp [h, lookupA_append_self m k author_value h]
  | some v => simp [h]

theorem lookupA_append_other (m : AMap) (k k' : Option String) (v : AuthorValue)
    (h : k' ≠ k) : lookupA (m ++ [(k, v)]) k' = lookupA m k' := by
  induction m with
  | nil => simp [lookupA, Ne.symm h]
  | cons p rest ih =>
    obtain ⟨a, w⟩ := p
    by_cases hak : a = k' <;> simp [lookupA, hak, ih]

theorem lookupA_ensure_other (m : AMap) (k k' : Option String) (h : k' ≠ k) :
    lookupA (ensureKey m k) k' = lookupA m k' := by
  unfold ensureKey
  split
  · rfl
  · exact lookupA_append_other m k k' author_value h

theorem lookupA_bump_self (m : AMap) (k : Option String) (v : AuthorValue)
    (f : AuthorValue → AuthorValue) (h : lookupA m k = some v) :
    lookupA (bumpKey m k f) k = some (f v) := by
  induction m with
  | nil => simp [lookupA] at h
  | cons p rest ih =>
    obtain ⟨a, w⟩ := p
    by_cases hak : a = k
    · subst hak
      simp [lookupA] at h
      simp [bumpKey, lookupA, h]
    · simp [lookupA, hak] at h
      simpa [bumpKey, lookupA, hak] using ih h

theorem lookupA_bump_other (m : AMap) (k k' : Option String)
    (f : AuthorValue → AuthorValue) (h : k' ≠ k) :
    lookupA (bumpKey m k f) k' = lookupA m k' := by
  induction m with
  | nil => simp [bumpKey]
  | cons p rest ih =>
    obtain ⟨a, w⟩ := p
    by_cases hak : a = k
    · subst hak
      simp [bumpKey, lookupA, Ne.symm h]
    · by_cases hak' : a = k' <;> simp [bumpKey, lookupA, hak, hak', ih, h]

theorem keys_bump (m : AMap) (k : Option String) (f : AuthorValue → AuthorValue) :
    (bumpKey m k f).map Prod.fst = m.map Prod.fst := by
  induction m with
  | nil => rfl
  | cons p rest ih =>
    obtain ⟨a, w⟩ := p
    by_cases hak : a = k <;> simp [bumpKey, hak, ih]

theorem keys_ensure (m : AMap) (k : Option String) :
    (ensureKey m k).map Prod.fst =
      m.map Prod.fst ++ (if (lookupA m k).isSome then [] else [k]) := by
  unfold ensureKey
  split <;> simp_all

theorem mem_bumpKey (m : AMap) (k : Option String) (f : AuthorValue → AuthorValue)
    (p : Option String × AuthorValue) (h : p ∈ bumpKey m k f) :
    p ∈ m ∨ ∃ v, (k, v) ∈ m ∧ p = (k, f v) := by
  induction m with
  | nil => simp [bumpKey] at h
  | cons q rest ih =>
    obtain ⟨a, w⟩ := q
    by_cases hak : a = k
    · subst hak
      simp [bumpKey] at h
      rcases h with h | h
      · exact Or.inr ⟨w, by simp, h⟩
      · exact Or.inl (List.mem_cons_of_mem _ h)
    · simp [bumpKey, hak] at h
      rcases h with h | h
      · exact Or.inl (by simp [h])
      · rcases ih h with h' | ⟨v, hv, hp⟩
        · exact Or.inl (List.mem_cons_of_mem _ h')
        · exact Or.inr ⟨v, List.mem_cons_of_mem _ hv, hp⟩

theorem mem_ensureKey (m : AMap) (k : Option String)
    (p : Option String × AuthorValue) (h : p ∈ ensureKey m k) :
    p ∈ m ∨ p = (k, author_value) := by
  unfold ensureKey at h
  split at h
  · exact Or.inl h
  · rcases List.mem_append.mp h with h' | h'
    · exact Or.inl h'
    · simp at h'
      exact Or.inr (by simp [h'])

/-- The sum of `total_prs` over every entry of `author_stats`. -/
def sumTotals (m : AMap) : Nat := (m.map (fun p => p.2.total_prs)).sum

theorem sumTotals_ensure (m : AMap) (k : Option String) :
    sumTotals (ensureKey m k) = sumTotals m := by
  unfold ensureKey
  split
  · rfl
  · simp [sumTotals, author_value]

theorem sumTotals_bump (m : AMap) (k : Option String) (v : AuthorValue)
    (f : AuthorValue → AuthorValue) (h : lookupA m k = some v) :
    sumTotals (bumpKey m k f) + v.total_prs = sumTotals m + (f v).total_prs := by
  induction m with
  | nil => simp [lookupA] at h
  | cons p rest ih =>
    obtain ⟨a, w⟩ := p
    by_cases hak : a = k
    · subst hak
      simp [lookupA] at h
      subst h
      simp [bumpKey, sumTotals]
      omega
    · simp [lookupA, hak] at h
      have := ih h
      simp [bumpKey, hak, sumTotals] at this ⊢
      omega

theorem applyIssue_total_prs (i : IssueWithMetrics) (v : AuthorValue) :
    (applyIssue i v).total_prs = v.total_prs + 1 := by
  unfold applyIssue
  split <;> split <;> split <;> rfl

/-! ## Loop invariants of the per-author aggregation -/

theorem stepIssue_stats (gr : GetReady) (st : StepState) (i : IssueWithMetrics)
    (st' : StepState) (h : stepIssue gr st i = .ok st') :
    st'.author_stats = stepStats st.author_stats i := by
  simp only [stepIssue] at h
  split at h
  · cases h
  · cases h; rfl
  · split at h
    · cases h
    · cases h; rfl

theorem stepIssue_sum (gr : GetReady) (st : StepState) (i : IssueWithMetrics)
    (st' : StepState) (h : stepIssue gr st i = .ok st') :
    sumTotals st'.author_stats = sumTotals st.author_stats + 1 := by
  rw [stepIssue_stats gr st i st' h]
  unfold stepStats
  have hl := lookupA_ensure_self st.author_stats i.author
  have hb := sumTotals_bump (ensureKey st.author_stats i.author) i.author
    ((lookupA st.author_stats i.author).getD author_value) (applyIssue i) hl
  rw [sumTotals_ensure] at hb
  rw [applyIssue_total_prs] at hb
  omega

theorem sliceLoop_sum (gr : GetReady) :
    ∀ (issues : List IssueWithMetrics) (st0 st : StepState),
      sliceLoop gr st0 issues = .ok st →
      sumTotals st.author_stats = sumTotals st0.author_stats + issues.length := by
  intro issues
  induction issues with
  | nil =>
    intro st0 st h
    simp [sliceLoop] at h
    simp [h]
  | cons i rest ih =>
    intro st0 st h
    unfold sliceLoop at h
    cases hs : stepIssue gr st0 i with
    | error e => rw [hs] at h; exact absurd h (by simp)
    | ok st1 =>
      rw [hs] at h
      have h1 := ih st1 st h
      have h2 := stepIssue_sum gr st0 i st1 hs
      simp [h1, h2]
      omega

/-- The data-integrity invariant behind the average guards: a metric whose
count is zero has never received a contribution, so its total is zero. -/
def GoodV (v : AuthorValue) : Prop :=
  (v.first_response_count = 0 → v.total_time_to_first_response = 0)
    ∧ (v.close_count = 0 → v.total_time_to_close = 0)
    ∧ (v.answer_count = 0 → v.total_time_to_answer = 0)

theorem goodV_author_value : GoodV author_value := by
  simp [GoodV, author_value]

theorem goodV_applyIssue (i : IssueWithMetrics) (v : AuthorValue)
    (h : GoodV v) : GoodV (applyIssue i v) := by
  obtain ⟨h1, h2, h3⟩ := h
  unfold applyIssue GoodV
  split <;> split <;> split <;>
    refine ⟨?_, ?_, ?_⟩ <;> intro hc <;> simp_all

theorem goodV_stepStats (m : AMap) (i : IssueWithMetrics)
    (hall : ∀ p ∈ m, GoodV p.2) : ∀ p ∈ stepStats m i, GoodV p.2 := by
  intro p hp
  unfold stepStats at hp
  rcases mem_bumpKey _ _ _ _ hp with hp' | ⟨v, hv, rfl⟩
  · rcases mem_ensureKey _ _ _ hp' with hm | rfl
    · exact hall p hm
    · exact goodV_author_value
  · rcases mem_ensureKey _ _ _ hv with hm | hveq
    · exact goodV_applyIssue i v (hall _ hm)
    · have : v = author_value := congrArg Prod.snd hveq
      exact this ▸ goodV_applyIssue i v (this ▸ goodV_author_value)

theorem goodV_sliceLoop (gr : GetReady) :
    ∀ (issues : List IssueWithMetrics) (st0 st : StepState),
      sliceLoop gr st0 issues = .ok st →
      (∀ p ∈ st0.author_stats, GoodV p.2) →
      ∀ p ∈ st.author_stats, GoodV p.2 := by
  intro issues
  induction issues with
  | nil =>
    intro st0 st h hall
    simp [sliceLoop] at h
    exact h ▸ hall
  | cons i rest ih =>
    intro st0 st h hall
    unfold sliceLoop at h
    cases hs : stepIssue gr st0 i with
    | error e => rw [hs] at h; exact absurd h (by simp)
    | ok st1 =>
      rw [hs] at h
      refine ih st1 st h ?_
      rw [stepIssue_stats gr st0 i st1 hs]
      exact goodV_stepStats st0.author_stats i hall

/-! ## First-encounter order of authors -/

/-- The authors of `issues` not already in `seen`, in order of first
occurrence. -/
def firstSeenAux (seen : List (Option String)) :
    List IssueWithMetrics → List (Option String)
  | [] => []
  | i :: rest =>
    if i.author ∈ seen then firstSeenAux seen rest
    else i.author :: firstSeenAux (seen ++ [i.author]) rest

/-- The distinct authors of `issues`, in order of first occurrence. -/
def firstSeen (issues : List IssueWithMetrics) : List (Option String) :=
  firstSeenAux [] issues

theorem mem_keys_iff_lookupA (m : AMap) (k : Option String) :
    k ∈ m.map Prod.fst ↔ (lookupA m k).isSome := by
  induction m with
  | nil => simp [lookupA]
  | cons p rest ih =>
    obtain ⟨a, w⟩ := p
    by_cases hak : a = k
    · simp [lookupA, hak]
    · simp [lookupA, hak, ih, Ne.symm hak]

theorem stepStats_keys (m : AMap) (i : IssueWithMetrics) :
    (stepStats m i).map Prod.fst =
      m.map Prod.fst ++ (if i.author ∈ m.map Prod.fst then [] else [i.author]) := by
  unfold stepStats
  rw [keys_bump, keys_ensure]
  by_cases hmem : i.author ∈ m.map Prod.fst
  · rw [if_pos ((mem_keys_iff_lookupA m i.author).mp hmem), if_pos hmem]
  · rw [if_neg (by
      intro hsome
      exact hmem ((mem_keys_iff_lookupA m i.author).mpr hsome)), if_neg hmem]

theorem sliceLoop_keys (gr : GetReady) :
    ∀ (issues : List IssueWithMetrics) (st0 st : StepState),
      sliceLoop gr st0 issues = .ok st →
      st.author_stats.map Prod.fst =
        st0.author_stats.map Prod.fst
          ++ firstSeenAux (st0.author_stats.map Prod.fst) issues := by
  intro issues
  induction issues with
  | nil =>
    intro st0 st h
    simp [sliceLoop] at h
    simp [h, firstSeenAux]
  | cons i rest ih =>
    intro st0 st h
    unfold sliceLoop at h
    cases hs : stepIssue gr st0 i with
    | error e => rw [hs] at h; exact absurd h (by simp)
    | ok st1 =>
      rw [hs] at h
      have hk1 : st1.author_stats.map Prod.fst =
          st0.author_stats.map Prod.fst
            ++ (if i.author ∈ st0.author_stats.map Prod.fst then []
                else [i.author]) := by
        rw [stepIssue_stats gr st0 i st1 hs]
        exact stepStats_keys st0.author_stats i
      have h1 := ih st1 st h
      by_cases hmem : i.author ∈ st0.author_stats.map Prod.fst
      · rw [h1, hk1]
        simp [hmem, firstSeenAux]
      · rw [h1, hk1]
        simp [hmem, firstSeenAux]

/-- Every author key present before a step is still present after it. -/
theorem stepStats_lookup_mono (m : AMap) (i : IssueWithMetrics)
    (k : Option String) (hk : (lookupA m k).isSome) :
    (lookupA (stepStats m i) k).isSome := by
  unfold stepStats
  by_cases hak : k = i.author
  · subst hak
    rw [lookupA_bump_self _ _ _ _ (lookupA_ensure_self m i.author)]
    rfl
  · rw [lookupA_bump_other _ _ _ _ hak, lookupA_ensure_other _ _ _ hak]
    exact hk

theorem sliceLoop_lookup_mono (gr : GetReady) :
    ∀ (issues : List IssueWithMetrics) (st0 st : StepState),
      sliceLoop gr st0 issues = .ok st →
      ∀ k, (lookupA st0.author_stats k).isSome →
        (lookupA st.author_stats k).isSome := by
  intro issues
  induction issues with
  | nil =>
    intro st0 st h k hk
    simp [sliceLoop] at h
    exact h ▸ hk
  | cons i rest ih =>
    intro st0 st h k hk
    unfold sliceLoop at h
    cases hs : stepIssue gr st0 i with
    | error e => rw [hs] at h; exact absurd h (by simp)
    | ok st1 =>
      rw [hs] at h
      refine ih st1 st h k ?_
      rw [stepIssue_stats gr st0 i st1 hs]
      exact stepStats_lookup_mono st0.author_stats i k hk

/-- Every processed item, whatever its author value (`None` included), has
an entry under its author key in the final mapping. -/
theorem sliceLoop_mem_author (gr : GetReady) :
    ∀ (issues : List IssueWithMetrics) (st0 st : StepState),
      sliceLoop gr st0 issues = .ok st →
      ∀ i ∈ issues, (lookupA st.author_stats i.author).isSome := by
  intro issues
  induction issues with
  | nil => intro st0 st h i hi; simp at hi
  | cons j rest ih =>
    intro st0 st h i hi
    unfold sliceLoop at h
    cases hs : stepIssue gr st0 j with
    | error e => rw [hs] at h; exact absurd h (by simp)
    | ok st1 =>
      rw [hs] at h
      rcases List.mem_cons.mp hi with rfl | hi'
      · refine sliceLoop_lookup_mono gr rest st1 st h i.author ?_
        rw [stepIssue_stats gr st0 i st1 hs]
        unfold stepStats
        rw [lookupA_bump_self _ _ _ _ (lookupA_ensure_self st0.author_stats i.author)]
        rfl
      · exact ih st1 st h i hi'

/-! ## Average cells -/

theorem avgCellFR_ok (v : AuthorValue) :
    avgCellFR v = .ok (if v.first_response_count = 0 then "None"
      else timedeltaStr
        (Int.fdiv v.total_time_to_first_response (v.first_response_count : Int))) := by
  unfold avgCellFR pyFloorDiv
  by_cases hc : v.first_response_count = 0
  · simp [hc]
  · have : ((v.first_response_count : Int)) ≠ 0 := by
      exact_mod_cast hc
    simp [hc, this]

theorem avgCellClose_ok (v : AuthorValue)
    (h : v.close_count = 0 → v.total_time_to_close = 0) :
    avgCellClose v = .ok (if v.total_time_to_close = 0 then "None"
      else timedeltaStr (Int.fdiv v.total_time_to_close (v.close_count : Int))) := by
  unfold avgCellClose pyFloorDiv
  by_cases ht : v.total_time_to_close = 0
  · simp [ht]
  · have hc : v.close_count ≠ 0 := fun hc0 => ht (h hc0)
    have : ((v.close_count : Int)) ≠ 0 := by exact_mod_cast hc
    simp [ht, this]

/-- With the count-zero-total-zero invariant, a per-author row never raises
`ZeroDivisionError`. -/
theorem authorRow_ok (a : Option String) (v : AuthorValue) (h : GoodV v) :
    authorRow a v = .ok
      [" " ++ pyOptS a ++ " |",
       " " ++ (if v.first_response_count = 0 then "None"
          else timedeltaStr (Int.fdiv v.total_time_to_first_response
            (v.first_response_count : Int))) ++ " |",
       " " ++ (if v.total_time_to_close = 0 then "None"
          else timedeltaStr (Int.fdiv v.total_time_to_close
            (v.close_count : Int))) ++ " |",
       " " ++ toString v.total_prs ++ " |",
       " " ++ toString v.comments ++ " |", "\n"] := by
  unfold authorRow
  rw [avgCellFR_ok, avgCellClose_ok v h.2.1]
  rfl

theorem renderRows_ok (m : AMap) (hall : ∀ p ∈ m, GoodV p.2) :
    ∃ rows, renderRows m = .ok rows := by
  induction m with
  | nil => exact ⟨[], rfl⟩
  | cons p rest ih =>
    obtain ⟨a, v⟩ := p
    obtain ⟨rows, hrows⟩ := ih (fun q hq => hall q (List.mem_cons_of_mem _ hq))
    obtain ⟨r, hr⟩ : ∃ r, authorRow a v = .ok r :=
      ⟨_, authorRow_ok a v (hall (a, v) (by simp))⟩
    refine ⟨r ++ rows, ?_⟩
    unfold renderRows
    rw [hr, hrows]
    rfl

/-! ## Per-field behaviour of the accumulator update -/

theorem truthyDur_some_zero : truthyDur (some 0) = false := rfl

theorem applyIssue_fr (i : IssueWithMetrics) (v : AuthorValue) :
    (truthyDur i.time_to_first_response = true →
      (applyIssue i v).first_response_count = v.first_response_count + 1 ∧
      (applyIssue i v).total_time_to_first_response =
        v.total_time_to_first_response + i.time_to_first_response.getD 0) ∧
    (truthyDur i.time_to_first_response = false →
      (applyIssue i v).first_response_count = v.first_response_count ∧
      (applyIssue i v).total_time_to_first_response =
        v.total_time_to_first_response) := by
  constructor <;> intro hfr <;>
    cases hcl : truthyDur i.time_to_close <;>
    cases han : truthyDur i.time_to_answer <;>
    simp [applyIssue, hfr, hcl, han]

theorem applyIssue_close (i : IssueWithMetrics) (v : AuthorValue) :
    (truthyDur i.time_to_close = true →
      (applyIssue i v).close_count = v.close_count + 1 ∧
      (applyIssue i v).total_time_to_close =
        v.total_time_to_close + i.time_to_close.getD 0) ∧
    (truthyDur i.time_to_close = false →
      (applyIssue i v).close_count = v.close_count ∧
      (applyIssue i v).total_time_to_close = v.total_time_to_close) := by
  constructor <;> intro hcl <;>
    cases hfr : truthyDur i.time_to_first_response <;>
    cases han : truthyDur i.time_to_answer <;>
    simp [applyIssue, hfr, hcl, han]

theorem applyIssue_answer (i : IssueWithMetrics) (v : AuthorValue) :
    (truthyDur i.time_to_answer = true →
      (applyIssue i v).answer_count = v.answer_count + 1 ∧
      (applyIssue i v).total_time_to_answer =
        v.total_time_to_answer + i.time_to_answer.getD 0) ∧
    (truthyDur i.time_to_answer = false →
      (applyIssue i v).answer_count = v.answer_count ∧
      (applyIssue i v).total_time_to_answer = v.total_time_to_answer) := by
  constructor <;> intro han <;>
    cases hfr : truthyDur i.time_to_first_response <;>
    cases hcl : truthyDur i.time_to_close <;>
    simp [applyIssue, hfr, hcl, han]

/-- The updated entry after one step, and the untouched other entries. -/
theorem stepIssue_entry (gr : GetReady) (st : StepState) (i : IssueWithMetrics)
    (st' : StepState) (h : stepIssue gr st i = .ok st') :
    lookupA st'.author_stats i.author =
      some (applyIssue i ((lookupA st.author_stats i.author).getD author_value)) ∧
    ∀ k, k ≠ i.author → lookupA st'.author_stats k = lookupA st.author_stats k := by
  rw [stepIssue_stats gr st i st' h]
  constructor
  · unfold stepStats
    exact lookupA_bump_self _ _ _ _ (lookupA_ensure_self st.author_stats i.author)
  · intro k hk
    unfold stepStats
    rw [lookupA_bump_other _ _ _ _ hk, lookupA_ensure_other _ _ _ hk]

/-! ## Evaluation helpers and concrete fixtures -/

/-- Is the slice call error-free? -/
def isOkE (r : Except String (List String)) : Bool :=
  match r with
  | .ok _ => true
  | .error _ => false

/-- The n-th string written by a successful slice call. -/
def getW (r : Except String (List String)) (n : Nat) : Option String :=
  match r with
  | .ok ws => ws.get? n
  | .error _ => none

/-- The final loop state of a successful run (dummy initial state otherwise). -/
def getOkState (r : Except String StepState) : StepState :=
  match r with
  | .ok st => st
  | .error _ => initState

/-- The `first_response_count` recorded for author `k` by a successful run. -/
def frCountOf (r : Except String StepState) (k : Option String) : Option Nat :=
  match r with
  | .ok st => (lookupA st.author_stats k).map (fun v => v.first_response_count)
  | .error _ => none

/-- The `total_prs` recorded for author `k` by a successful run. -/
def totalPrsOf (r : Except String StepState) (k : Option String) : Option Nat :=
  match r with
  | .ok st => (lookupA st.author_stats k).map (fun v => v.total_prs)
  | .error _ => none

/-- A ready-for-review collaborator that reports every pull request ready at
time 0. -/
def grZero : GetReady := fun _ _ => some 0

def uAlice : User := { login := "alice", type := "User" }

def uBob : User := { login := "bob", type := "User" }

def uCarol : User := { login := "carol", type := "User" }

/-- A pull request carrying one human review comment by carol, submitted
after the ready-for-review time 0. -/
def prCarol : PullRequest := { reviews := [{ user := uCarol, submitted_at := 5 }] }

/-- A pull request whose only review comment is a self-comment by alice. -/
def prAliceSelf : PullRequest :=
  { reviews := [{ user := uAlice, submitted_at := 5 }] }

/-- A metric-less item template. -/
def mkItem (a : Option String) (iss : Issue) : IssueWithMetrics :=
  { author := a, title := "t", html_url := "u",
    time_to_first_response := none, time_to_close := none, time_to_answer := none,
    label_metrics := none, issue := iss }

/-- Pull-request item by alice with carol's qualifying review comment. -/
def itemQual : IssueWithMetrics :=
  mkItem (some "alice")
    { pull_request_urls := true, pull_request := some prCarol, user := uAlice }

/-- Pull-request item by alice whose only review comment is her own. -/
def itemSelf : IssueWithMetrics :=
  mkItem (some "alice")
    { pull_request_urls := true, pull_request := some prAliceSelf, user := uAlice }

/-- Item by bob with no pull-request cross-reference. -/
def itemNoPR : IssueWithMetrics :=
  mkItem (some "bob")
    { pull_request_urls := false, pull_request := none, user := uBob }

/-- Item by alice whose pull-request urls are present but whose
`pull_request()` call returns `None` (harmless for the comment section). -/
def itemPlain : IssueWithMetrics :=
  mkItem (some "alice")
    { pull_request_urls := true, pull_request := none, user := uAlice }

/-- `itemPlain` with a close duration of `n` seconds. -/
def itemClose (n : Int) : IssueWithMetrics :=
  { itemPlain with time_to_close := some n }

/-- `itemPlain` with a present-but-zero first-response duration. -/
def itemZeroFR : IssueWithMetrics :=
  { itemPlain with time_to_first_response := some 0 }

/-- Item with a missing (`None`) author. -/
def itemNullAuthor : IssueWithMetrics :=
  mkItem none
    { pull_request_urls := true, pull_request := none, user := uAlice }

/-! ## Title escaping and the detail table -/

theorem bar_notin_replaceBars (s : String) : '|' ∉ (replaceBars s).data := by
  intro h
  have h' : '|' ∈ s.data.flatMap (fun c => if c = '|' then "&#124;".data else [c]) := h
  rcases List.mem_flatMap.mp h' with ⟨c, _, hmem⟩
  by_cases hcb : c = '|'
  · rw [if_pos hcb] at hmem
    exact absurd hmem (by decide)
  · rw [if_neg hcb] at hmem
    exact hcb (List.mem_singleton.mp hmem ▸ rfl)

theorem mem_pyStrip (s : String) (c : Char) (h : c ∈ (pyStrip s).data) :
    c ∈ s.data := by
  have h1 : c ∈ ((s.data.dropWhile pyWS).reverse.dropWhile pyWS).reverse := h
  rw [List.mem_reverse] at h1
  have h2 := (List.dropWhile_sublist pyWS).mem h1
  rw [List.mem_reverse] at h2
  exact (List.dropWhile_sublist pyWS).mem h2

theorem bar_notin_escaped_title (s : String) :
    '|' ∉ (pyStrip (replaceBars s)).data :=
  fun h => bar_notin_replaceBars s (mem_pyStrip _ _ h)

/-- Every detail row starts with the title-and-URL write, the title already
escaped and stripped. -/
theorem detailRow_head (columns : List String) (labels : Option (List String))
    (i : IssueWithMetrics) :
    ∃ rest, (detailRow columns labels i).1 =
      ("| " ++ pyStrip (replaceBars i.title) ++ " | " ++ i.html_url ++ " |") :: rest := by
  unfold detailRow
  split
  · split <;> exact ⟨_, rfl⟩
  · exact ⟨_, rfl⟩

/-- A fault-free detail-table loop writes exactly the concatenation of the
per-item rows, in item order. -/
theorem detailRows_ok (columns : List String) (labels : Option (List String)) :
    ∀ items : List IssueWithMetrics,
      (detailRows columns labels items).2 = none →
      (detailRows columns labels items).1 =
        items.flatMap (fun j => (detailRow columns labels j).1) := by
  intro items
  induction items with
  | nil => intro _; rfl
  | cons i rest ih =>
    intro h
    cases hd : detailRow columns labels i with
    | mk ws e2 =>
      cases e2 with
      | some e3 => simp [detailRows, hd] at h
      | none =>
        have h2 : (detailRows columns labels rest).2 = none := by
          simpa [detailRows, hd] using h
        simp [detailRows, hd, List.flatMap_cons, ih h2]

/-- Decomposition of a fault-free non-empty report: the writes end with the
detail rows, the footer and the optional query line. -/
theorem writeNonEmpty_ok (gr : GetReady) (items : List IssueWithMetrics)
    (sfr scl san : Option Stats3) (slab : Option LabelStats)
    (nopen nclosed : Option Int) (labels : Option (List String))
    (q : Option String) (hlm : Bool) (columns : List String)
    (h : (writeNonEmpty gr items sfr scl san slab nopen nclosed labels q hlm
      columns).2 = none) :
    ∃ w0, (writeNonEmpty gr items sfr scl san slab nopen nclosed labels q hlm
        columns).1 =
      w0 ++ (detailRows columns labels items).1 ++ [footerStr] ++ queryWrites q
      ∧ (detailRows columns labels items).2 = none := by
  cases ho : write_overall_metrics_tables items sfr scl san slab nopen nclosed
      labels columns hlm with
  | mk w1 e1 =>
    cases e1 with
    | some e => simp [writeNonEmpty, ho] at h
    | none =>
      cases hs : slice_pr_by_user gr items with
      | error e => simp [writeNonEmpty, ho, hs] at h
      | ok w2 =>
        cases hd : detailRows columns labels items with
        | mk w3 e3 =>
          cases e3 with
          | some e => simp [writeNonEmpty, ho, hs, hd] at h
          | none =>
            refine ⟨w1 ++ w2 ++ ["# Individual Metrics\n\n"]
              ++ tableHeaderWrites columns, ?_, rfl⟩
            simp [writeNonEmpty, ho, hs, hd, List.append_assoc]

/-! ## Claims C1-C6: the per-author aggregation -/

/-- C1 (code_bug): the spec says a qualifying review comment increments the
commenter's comment count (never the item author's), and that a
comment-only author appears in the mapping. Line 74 of `slice_by_user.py`
instead subscripts the author *string* (`author[review_comment.user]`), so
the first qualifying comment raises `TypeError` and no comment count is ever
incremented. This theorem evaluates the code at the failing input: a
pull-request item by alice carrying one human review comment by carol
submitted after the ready-for-review time. -/
theorem c1_qualifying_comment_raises :
    slice_pr_by_user grZero [itemQual] = .error typeErrorMsg := rfl

/-- C2 (code_bug): the spec says an item without a pull-request
cross-reference contributes zero qualifying comments and no failure, and
that stale pull-request data is never read. In the code `pull_request` and
`ready_for_review_at` are only assigned under `if issue.issue.pull_request_urls`
(lines 58-60) while `if pull_request:` (line 62) runs unconditionally: a
no-cross-reference item as first item raises `UnboundLocalError`, and after
a pull-request item it silently re-reads that item's pull request (here:
alice's self-comment is ignored for alice's own item, but qualifies against
bob's later cross-reference-free item and raises `TypeError` at line 74). -/
theorem c2_missing_pr_crossref_crashes_or_reads_stale :
    slice_pr_by_user grZero [itemNoPR] = .error unboundLocalMsg
      ∧ isOkE (slice_pr_by_user grZero [itemSelf]) = true
      ∧ slice_pr_by_user grZero [itemSelf, itemNoPR] = .error typeErrorMsg :=
  ⟨rfl, rfl, rfl⟩

/-- C3 counterexample: the claim says a nonzero count yields the average
`floor(total/count)` and that the guard is a count check, not a total check.
Line 98 guards the close average on `total_time_to_close`. Two close
durations of +1h and -1h (Python `timedelta` is signed) give
`close_count = 2` but total `0`, and the close cell (write index 17) renders
`None` where the claim demands `floor(0/2) = 0:00:00`. -/
theorem c3_close_guard_counterexample :
    getW (slice_pr_by_user grZero [itemClose 3600, itemClose (-3600)]) 17
      = some " None |"
      ∧ (" None |" : String) ≠ " " ++ timedeltaStr (Int.fdiv 0 2) ++ " |" :=
  ⟨rfl, by decide⟩

/-- C3 (amended): for every author of a successful aggregation run, the
first-response average is guarded by its count (nonzero count renders
`floor(total/count)` as a duration, zero count renders `None`); the close
average is guarded by the accumulated total, not the count (nonzero total
renders `floor(total/count)`, zero total renders `None` even when the count
is nonzero); a zero count forces a zero total, so a zero count still renders
`None` and neither cell ever raises `ZeroDivisionError` (both cells return
`.ok`). -/
theorem c3_average_guards (gr : GetReady) (issues : List IssueWithMetrics)
    (st : StepState) (h : sliceLoop gr initState issues = .ok st) :
    ∀ p ∈ st.author_stats,
      avgCellFR p.2 = .ok (if p.2.first_response_count = 0 then "None"
        else timedeltaStr (Int.fdiv p.2.total_time_to_first_response
          (p.2.first_response_count : Int)))
      ∧ avgCellClose p.2 = .ok (if p.2.total_time_to_close = 0 then "None"
        else timedeltaStr (Int.fdiv p.2.total_time_to_close
          (p.2.close_count : Int)))
      ∧ (p.2.close_count = 0 → p.2.total_time_to_close = 0)
      ∧ (p.2.total_time_to_close ≠ 0 → p.2.close_count ≠ 0) := by
  intro p hp
  have hg := goodV_sliceLoop gr issues initState st h (by simp [initState]) p hp
  exact ⟨avgCellFR_ok p.2, avgCellClose_ok p.2 hg.2.1, hg.2.1,
    fun ht hc => ht (hg.2.1 hc)⟩

/-- The accumulator alice holds after the single item `itemClose 3600`. -/
def c3v : AuthorValue :=
  { total_time_to_first_response := 0
    total_time_to_close := 3600
    total_time_to_answer := 0
    first_response_count := 0
    close_count := 1
    answer_count := 0
    total_prs := 1
    comments := 0 }

/-- Witness for C3: the amended claim applied to the concrete run over
`[itemClose 3600]` and its alice entry. -/
theorem c3_average_guards_witness :
    avgCellFR c3v = .ok (if c3v.first_response_count = 0 then "None"
      else timedeltaStr (Int.fdiv c3v.total_time_to_first_response
        (c3v.first_response_count : Int)))
    ∧ avgCellClose c3v = .ok (if c3v.total_time_to_close = 0 then "None"
      else timedeltaStr (Int.fdiv c3v.total_time_to_close
        (c3v.close_count : Int)))
    ∧ (c3v.close_count = 0 → c3v.total_time_to_close = 0)
    ∧ (c3v.total_time_to_close ≠ 0 → c3v.close_count ≠ 0) :=
  c3_average_guards grZero [itemClose 3600]
    (getOkState (sliceLoop grZero initState [itemClose 3600])) rfl
    (some "alice", c3v) (by decide)

/-- C4 counterexample: the claim says a non-null duration of exactly zero is
added and counted. Line 43 tests `if issue.time_to_first_response:`, and a
present `timedelta(0)` is falsy in Python, so for an item whose
first-response duration is a non-null zero the count stays `0` where the
claim demands `1` (while `total_prs` is still incremented). -/
theorem c4_zero_duration_counterexample :
    frCountOf (sliceLoop grZero initState [itemZeroFR]) (some "alice") = some 0
      ∧ totalPrsOf (sliceLoop grZero initState [itemZeroFR]) (some "alice") = some 1
      ∧ (some 0 : Option Nat) ≠ some 1 :=
  ⟨rfl, rfl, by decide⟩

/-- C4 (amended): a successful loop step replaces the item author's entry by
`applyIssue` of its previous value (seeding with the zero accumulator on
first sight) and leaves every other author's entry unchanged; `applyIssue`
always increments `total_prs`, and for each metric it adds the duration and
increments the count exactly when the duration is truthy (non-null and
nonzero) and leaves both untouched otherwise; a non-null zero duration is
not truthy, so it is skipped exactly like a null one. -/
theorem c4_duration_accumulation (gr : GetReady) (st : StepState)
    (i : IssueWithMetrics) (st' : StepState) (v : AuthorValue)
    (h : stepIssue gr st i = .ok st') :
    lookupA st'.author_stats i.author =
      some (applyIssue i ((lookupA st.author_stats i.author).getD author_value))
    ∧ (∀ k, k ≠ i.author → lookupA st'.author_stats k = lookupA st.author_stats k)
    ∧ (applyIssue i v).total_prs = v.total_prs + 1
    ∧ (truthyDur i.time_to_first_response = true →
        (applyIssue i v).first_response_count = v.first_response_count + 1
        ∧ (applyIssue i v).total_time_to_first_response =
            v.total_time_to_first_response + i.time_to_first_response.getD 0)
    ∧ (truthyDur i.time_to_first_response = false →
        (applyIssue i v).first_response_count = v.first_response_count
        ∧ (applyIssue i v).total_time_to_first_response =
            v.total_time_to_first_response)
    ∧ (truthyDur i.time_to_close = true →
        (applyIssue i v).close_count = v.close_count + 1
        ∧ (applyIssue i v).total_time_to_close =
            v.total_time_to_close + i.time_to_close.getD 0)
    ∧ (truthyDur i.time_to_close = false →
        (applyIssue i v).close_count = v.close_count
        ∧ (applyIssue i v).total_time_to_close = v.total_time_to_close)
    ∧ (truthyDur i.time_to_answer = true →
        (applyIssue i v).answer_count = v.answer_count + 1
        ∧ (applyIssue i v).total_time_to_answer =
            v.total_time_to_answer + i.time_to_answer.getD 0)
    ∧ (truthyDur i.time_to_answer = false →
        (applyIssue i v).answer_count = v.answer_count
        ∧ (applyIssue i v).total_time_to_answer = v.total_time_to_answer)
    ∧ truthyDur (some 0) = false := by
  obtain ⟨h1, h2⟩ := stepIssue_entry gr st i st' h
  exact ⟨h1, h2, applyIssue_total_prs i v,
    (applyIssue_fr i v).1, (applyIssue_fr i v).2,
    (applyIssue_close i v).1, (applyIssue_close i v).2,
    (applyIssue_answer i v).1, (applyIssue_answer i v).2,
    truthyDur_some_zero⟩

/-- Witness for C4: the amended claim applied to the concrete step over
`itemZeroFR` from the empty state, with `v` the zero accumulator. -/
theorem c4_duration_accumulation_witness :
    lookupA (getOkState (stepIssue grZero initState itemZeroFR)).author_stats
        itemZeroFR.author =
      some (applyIssue itemZeroFR
        ((lookupA initState.author_stats itemZeroFR.author).getD author_value))
    ∧ (∀ k, k ≠ itemZeroFR.author →
        lookupA (getOkState (stepIssue grZero initState itemZeroFR)).author_stats k
          = lookupA initState.author_stats k)
    ∧ (applyIssue itemZeroFR author_value).total_prs = author_value.total_prs + 1
    ∧ (truthyDur itemZeroFR.time_to_first_response = true →
        (applyIssue itemZeroFR author_value).first_response_count =
          author_value.first_response_count + 1
        ∧ (applyIssue itemZeroFR author_value).total_time_to_first_response =
            author_value.total_time_to_first_response
              + itemZeroFR.time_to_first_response.getD 0)
    ∧ (truthyDur itemZeroFR.time_to_first_response = false →
        (applyIssue itemZeroFR author_value).first_response_count =
          author_value.first_response_count
        ∧ (applyIssue itemZeroFR author_value).total_time_to_first_response =
            author_value.total_time_to_first_response)
    ∧ (truthyDur itemZeroFR.time_to_close = true →
        (applyIssue itemZeroFR author_value).close_count =
          author_value.close_count + 1
        ∧ (applyIssue itemZeroFR author_value).total_time_to_close =
            author_value.total_time_to_close + itemZeroFR.time_to_close.getD 0)
    ∧ (truthyDur itemZeroFR.time_to_close = false →
        (applyIssue itemZeroFR author_value).close_count = author_value.close_count
        ∧ (applyIssue itemZeroFR author_value).total_time_to_close =
            author_value.total_time_to_close)
    ∧ (truthyDur itemZeroFR.time_to_answer = true →
        (applyIssue itemZeroFR author_value).answer_count =
          author_value.answer_count + 1
        ∧ (applyIssue itemZeroFR author_value).total_time_to_answer =
            author_value.total_time_to_answer + itemZeroFR.time_to_answer.getD 0)
    ∧ (truthyDur itemZeroFR.time_to_answer = false →
        (applyIssue itemZeroFR author_value).answer_count =
          author_value.answer_count
        ∧ (applyIssue itemZeroFR author_value).total_time_to_answer =
            author_value.total_time_to_answer)
    ∧ truthyDur (some 0) = false :=
  c4_duration_accumulation grZero initState itemZeroFR
    (getOkState (stepIssue grZero initState itemZeroFR)) author_value rfl

/-- C5 (confirmed): for every input collection accepted by the aggregation
loop (the loop returns a mapping rather than raising), the `total_prs`
counts summed over all authors equal the number of items. -/
theorem c5_attribution_conservation (gr : GetReady)
    (issues : List IssueWithMetrics) (st : StepState)
    (h : sliceLoop gr initState issues = .ok st) :
    sumTotals st.author_stats = issues.length := by
  have h1 := sliceLoop_sum gr issues initState st h
  simpa [initState, sumTotals] using h1

/-- Witness for C5: a concrete two-item run (alice's close-duration item,
then bob's cross-reference-free item). -/
theorem c5_attribution_conservation_witness :
    sumTotals (getOkState (sliceLoop grZero initState
        [itemClose 3600, itemNoPR])).author_stats
      = [itemClose 3600, itemNoPR].length :=
  c5_attribution_conservation grZero [itemClose 3600, itemNoPR]
    (getOkState (sliceLoop grZero initState [itemClose 3600, itemNoPR])) rfl

/-- C6 counterexample: the claim says an item with a missing (null) author
makes the aggregation fail fast with a missing-required-field signal. The
code has no such check: `None` is a perfectly valid dict key, so the run
succeeds and the item is silently grouped under the null key with
`total_prs = 1`. -/
theorem c6_null_author_counterexample :
    isOkE (slice_pr_by_user grZero [itemNullAuthor]) = true
      ∧ totalPrsOf (sliceLoop grZero initState [itemNullAuthor]) none = some 1 :=
  ⟨rfl, rfl⟩

/-- C6 (amended): the aggregation never rejects an item for a missing
author; every processed item, the null-authored ones included, is grouped
under its author key (so a null author silently becomes the `None` row of
the table rather than an error). -/
theorem c6_null_author_grouped (gr : GetReady) (issues : List IssueWithMetrics)
    (st : StepState) (h : sliceLoop gr initState issues = .ok st) :
    ∀ i ∈ issues, (lookupA st.author_stats i.author).isSome = true :=
  sliceLoop_mem_author gr issues initState st h

/-- Witness for C6: the amended claim at the concrete null-authored run. -/
theorem c6_null_author_grouped_witness :
    (lookupA (getOkState (sliceLoop grZero initState
        [itemNullAuthor])).author_stats itemNullAuthor.author).isSome = true :=
  c6_null_author_grouped grZero [itemNullAuthor]
    (getOkState (sliceLoop grZero initState [itemNullAuthor])) rfl
    itemNullAuthor (by simp)


/-! ## Claims C7-C10: the report writer -/

/-- Environment configuration hiding every optional column. -/
def envAllHidden : EnvVars :=
  { hide_author := true, hide_time_to_first_response := true,
    hide_time_to_close := true, hide_time_to_answer := true,
    hide_label_metrics := true }

/-- C7 counterexample: the claim says the empty report consists of the
notice, the footer and the optional query line and nothing else; the code
(line 110) writes the `# Issue Metrics` title header before the notice, so
the output is not just notice-plus-footer. -/
theorem c7_empty_counterexample :
    (write_to_markdown envAllHidden grZero (some []) none none none none none
        none none none false).writes
      = ["# Issue Metrics\n\n", noticeStr, footerStr]
      ∧ ["# Issue Metrics\n\n", noticeStr, footerStr] ≠ [noticeStr, footerStr] :=
  ⟨rfl, by decide⟩

/-- C7 (amended): for an absent or empty collection the report is exactly
the title header, the "no issues found" notice, the footer and - when a
truthy search query was supplied - the query line; no table write of any
kind occurs and no error is raised. -/
theorem c7_empty_report (env : EnvVars) (gr : GetReady)
    (issues : Option (List IssueWithMetrics)) (sfr scl san : Option Stats3)
    (slab : Option LabelStats) (nopen nclosed : Option Int)
    (labels : Option (List String)) (q : Option String) (hlm : Bool)
    (h : issues = none ∨ issues = some []) :
    (write_to_markdown env gr issues sfr scl san slab nopen nclosed labels q
        hlm).writes
      = ["# Issue Metrics\n\n", noticeStr, footerStr] ++ queryWrites q
    ∧ (write_to_markdown env gr issues sfr scl san slab nopen nclosed labels q
        hlm).err = none := by
  rcases h with rfl | rfl <;>
    simp [write_to_markdown, writeBody, pyTruthyIssues]

/-- Witness for C7: the amended claim at a concrete empty invocation with a
search query. -/
theorem c7_empty_report_witness :
    (write_to_markdown envAllHidden grZero none none none none none none none
        none (some "label:bug") false).writes
      = ["# Issue Metrics\n\n", noticeStr, footerStr]
          ++ queryWrites (some "label:bug")
    ∧ (write_to_markdown envAllHidden grZero none none none none none none
        none none (some "label:bug") false).err = none :=
  c7_empty_report envAllHidden grZero none none none none none none none none
    (some "label:bug") false (Or.inl rfl)

/-- C8 (confirmed): in every fault-free report over a collection containing
an item whose title has a vertical bar, the detail table's row for that item
starts with the title-and-URL write in which the title has every `|`
replaced by `&#124;` and leading/trailing whitespace stripped; the escaped
title contains no `|` at all. -/
theorem c8_title_escaping (env : EnvVars) (gr : GetReady)
    (items : List IssueWithMetrics) (sfr scl san : Option Stats3)
    (slab : Option LabelStats) (nopen nclosed : Option Int)
    (labels : Option (List String)) (q : Option String) (hlm : Bool)
    (i : IssueWithMetrics) (hmem : i ∈ items) (hbar : '|' ∈ i.title.data)
    (hok : (write_to_markdown env gr (some items) sfr scl san slab nopen
      nclosed labels q hlm).err = none) :
    (∃ pre post,
      (write_to_markdown env gr (some items) sfr scl san slab nopen nclosed
          labels q hlm).writes
        = pre ++ ("| " ++ pyStrip (replaceBars i.title) ++ " | "
            ++ i.html_url ++ " |") :: post)
    ∧ '|' ∉ (pyStrip (replaceBars i.title)).data := by
  refine ⟨?_, bar_notin_escaped_title i.title⟩
  have hne : pyTruthyIssues (some items) = true := by
    cases items with
    | nil => simp at hmem
    | cons a l => simp [pyTruthyIssues]
  have hwb : writeBody env gr (some items) sfr scl san slab nopen nclosed
      labels q hlm
      = writeNonEmpty gr items sfr scl san slab nopen nclosed labels q hlm
          (get_non_hidden_columns env labels) := by
    simp [writeBody, hne]
  have hok2 : (writeNonEmpty gr items sfr scl san slab nopen nclosed labels q
      hlm (get_non_hidden_columns env labels)).2 = none := by
    have he : (write_to_markdown env gr (some items) sfr scl san slab nopen
        nclosed labels q hlm).err
        = (writeBody env gr (some items) sfr scl san slab nopen nclosed labels
            q hlm).2 := rfl
    rw [he, hwb] at hok
    exact hok
  obtain ⟨w0, hw0, hdet⟩ := writeNonEmpty_ok gr items sfr scl san slab nopen
    nclosed labels q hlm (get_non_hidden_columns env labels) hok2
  have hflat := detailRows_ok (get_non_hidden_columns env labels) labels items
    hdet
  obtain ⟨l1, l2, hsplit⟩ := List.append_of_mem hmem
  obtain ⟨rest, hhead⟩ := detailRow_head (get_non_hidden_columns env labels)
    labels i
  refine ⟨"# Issue Metrics\n\n" :: (w0 ++ l1.flatMap
      (fun j => (detailRow (get_non_hidden_columns env labels) labels j).1)),
    rest ++ l2.flatMap
      (fun j => (detailRow (get_non_hidden_columns env labels) labels j).1)
      ++ [footerStr] ++ queryWrites q, ?_⟩
  have hwtm : (write_to_markdown env gr (some items) sfr scl san slab nopen
      nclosed labels q hlm).writes
      = "# Issue Metrics\n\n" :: (writeNonEmpty gr items sfr scl san slab
          nopen nclosed labels q hlm (get_non_hidden_columns env labels)).1 := by
    have hw : (write_to_markdown env gr (some items) sfr scl san slab nopen
        nclosed labels q hlm).writes
        = "# Issue Metrics\n\n" :: (writeBody env gr (some items) sfr scl san
            slab nopen nclosed labels q hlm).1 := rfl
    rw [hw, hwb]
  rw [hwtm, hw0, hflat, hsplit, List.flatMap_append, List.flatMap_cons, hhead]
  simp [List.append_assoc]

/-- Pull-request-free item by alice whose title carries a vertical bar and
stray whitespace. -/
def itemBar : IssueWithMetrics :=
  { mkItem (some "alice")
      { pull_request_urls := true, pull_request := none, user := uAlice } with
    title := " a|b " }

/-- Witness for C8: the theorem at a concrete fault-free one-item report. -/
theorem c8_title_escaping_witness :
    (∃ pre post,
      (write_to_markdown envAllHidden grZero (some [itemBar]) none none none
          none none none none none true).writes
        = pre ++ ("| " ++ pyStrip (replaceBars itemBar.title) ++ " | "
            ++ itemBar.html_url ++ " |") :: post)
    ∧ '|' ∉ (pyStrip (replaceBars itemBar.title)).data :=
  c8_title_escaping envAllHidden grZero [itemBar] none none none none none
    none none none true itemBar (by simp) (by decide) rfl

/-- C9 counterexample: the claim fixes the per-author header to
`Avg Time to First Response`; line 77 of the code titles the second column
`Avg Time to First Response On Their PRS`. -/
theorem c9_header_counterexample :
    slice_columns ≠ ["Author", "Avg Time to First Response",
      "Avg Time to Close", "Total PRs", "PR Review Comments Left"] := by
  decide

/-- The writes of a successful slice call (empty on error). -/
def okWrites (r : Except String (List String)) : List String :=
  match r with
  | .ok ws => ws
  | .error _ => []

/-- C9 (amended): every successful per-author table consists of the section
title, the header row built verbatim from `slice_columns` (whose second
column is `Avg Time to First Response On Their PRS`), the divider row, and
then the rendered rows of the author mapping, whose keys are exactly the
authors in order of first encounter in the input collection. -/
theorem c9_author_table (gr : GetReady) (issues : List IssueWithMetrics)
    (ws : List String) (h : slice_pr_by_user gr issues = .ok ws) :
    ∃ st rows, sliceLoop gr initState issues = .ok st
      ∧ renderRows st.author_stats = .ok rows
      ∧ ws = sliceHeader ++ rows
      ∧ st.author_stats.map Prod.fst = firstSeen issues := by
  cases hs : sliceLoop gr initState issues with
  | error e => simp [slice_pr_by_user, hs] at h
  | ok st =>
    cases hr : renderRows st.author_stats with
    | error e => simp [slice_pr_by_user, hs, hr] at h
    | ok rows =>
      have hws : slice_pr_by_user gr issues = .ok (sliceHeader ++ rows) := by
        simp [slice_pr_by_user, hs, hr]
      rw [hws] at h
      exact ⟨st, rows, rfl, hr, (Except.ok.inj h).symm, by
        simpa [initState, firstSeen] using
          sliceLoop_keys gr issues initState st hs⟩

/-- Witness for C9: the amended claim at a concrete one-item run. -/
theorem c9_author_table_witness :
    ∃ st rows, sliceLoop grZero initState [itemClose 3600] = .ok st
      ∧ renderRows st.author_stats = .ok rows
      ∧ okWrites (slice_pr_by_user grZero [itemClose 3600]) = sliceHeader ++ rows
      ∧ st.author_stats.map Prod.fst = firstSeen [itemClose 3600] :=
  c9_author_table grZero [itemClose 3600]
    (okWrites (slice_pr_by_user grZero [itemClose 3600])) rfl

/-- C10 (confirmed): whatever its arguments, `write_to_markdown` writes to
the hard-coded relative path `issue_metrics.md`; its signature exposes no
destination parameter with which a caller could change it. -/
theorem c10_fixed_destination (env : EnvVars) (gr : GetReady)
    (issues : Option (List IssueWithMetrics)) (sfr scl san : Option Stats3)
    (slab : Option LabelStats) (nopen nclosed : Option Int)
    (labels : Option (List String)) (q : Option String) (hlm : Bool) :
    (write_to_markdown env gr issues sfr scl san slab nopen nclosed labels q
      hlm).path = "issue_metrics.md" := rfl


end IssueMetrics
